import Mathlib

/-
  Verification development for the cluster-visualization core of the
  bci_research_scout repository, a shallow embedding of
  src/frontend/src/components/ClusterExplorer.tsx (together with the
  `ClusterData` / `ClusterPoint` types from src/frontend/src/types/index.ts).

  Numbers are modelled as rationals; JS `number | null` and optional fields
  as `Option`; the d3 calls the component makes (`d3.extent`, `d3.scaleLinear`,
  `d3.mean`) are embedded with the semantics of the d3 library functions the
  source invokes.
-/

namespace ClusterExplorer

/-- `ClusterPoint` from src/frontend/src/types/index.ts.  `cluster_id` is a
non-negative integer per the data-model invariants, `citation_count` is an
optional number. -/
structure ClusterPoint where
  id : String
  x : ℚ
  y : ℚ
  cluster_id : ℕ
  title : String
  year : ℤ
  keywords : List String
  citation_count : Option ℚ
deriving DecidableEq

/-- The `year_range` record inside a cluster summary. -/
structure YearRange where
  min : ℤ
  max : ℤ
deriving DecidableEq

/-- The value type of the `clusters` record in `ClusterData`. -/
structure ClusterInfo where
  size : ℕ
  top_keywords : List String
  year_range : YearRange
deriving DecidableEq

/-- `ClusterData` from src/frontend/src/types/index.ts.  The
`Record<number, …>` of cluster summaries is embedded as an association list
(key order models `Object.keys` enumeration order); the display-only opaque
`parameters: Record<string, any>` field is never read by the component and is
omitted.  `message?: string` is an `Option String`. -/
structure ClusterData where
  points : List ClusterPoint
  clusters : List (ℕ × ClusterInfo)
  algorithm : String
  message : Option String
deriving DecidableEq

/-- The fixed palette, lines 20-23 of ClusterExplorer.tsx. -/
def colors : List String :=
  ["#ef4444", "#22c55e", "#a855f7", "#f59e0b", "#ec4899",
   "#0ea5e9", "#10b981", "#f97316", "#8b5cf6", "#06b6d4"]

/-- `const width = 800` (line 31). -/
def width : ℚ := 800

/-- `const height = 600` (line 32). -/
def height : ℚ := 600

/-- The margin record of line 33. -/
structure Margin where
  top : ℚ
  right : ℚ
  bottom : ℚ
  left : ℚ

/-- `const margin = { top: 20, right: 20, bottom: 20, left: 20 }` (line 33). -/
def margin : Margin := ⟨20, 20, 20, 20⟩

/-- Lower end of `d3.extent`: the minimum of a list of numbers, scanned by a
fold.  `d3.extent` on an empty sequence yields `undefined`; the component only
builds scales when `points` is non-empty (line 26), so the value at `[]` is
irrelevant and fixed to `0`. -/
def listMin : List ℚ → ℚ
  | [] => 0
  | a :: l => l.foldl min a

/-- Upper end of `d3.extent`, see `listMin`. -/
def listMax : List ℚ → ℚ
  | [] => 0
  | a :: l => l.foldl max a

/-- `d3.scaleLinear().domain([a, b]).range([r0, r1])` applied to `x`.
d3-scale's `normalize(a, b)` returns the linear map when `b - a` is nonzero
and the constant `0.5` otherwise, after which the range interpolator computes
`r0 + t * (r1 - r0)`; so a zero-width domain maps every input to the midpoint
of the range and no division by zero occurs. -/
def d3ScaleLinear (a b r0 r1 x : ℚ) : ℚ :=
  if b - a = 0 then r0 + (1 / 2) * (r1 - r0)
  else r0 + ((x - a) / (b - a)) * (r1 - r0)

/-- `xExtent` (line 36): `d3.extent(data.points, d => d.x)`. -/
def xExtent (d : ClusterData) : ℚ × ℚ :=
  (listMin (d.points.map (·.x)), listMax (d.points.map (·.x)))

/-- `yExtent` (line 37): `d3.extent(data.points, d => d.y)`. -/
def yExtent (d : ClusterData) : ℚ × ℚ :=
  (listMin (d.points.map (·.y)), listMax (d.points.map (·.y)))

/-- `xScale` (lines 39-41): domain `xExtent`, range
`[margin.left, width - margin.right]`. -/
def xScale (d : ClusterData) (x : ℚ) : ℚ :=
  d3ScaleLinear (xExtent d).1 (xExtent d).2 margin.left (width - margin.right) x

/-- `yScale` (lines 43-45): domain `yExtent`, range
`[height - margin.bottom, margin.top]` (inverted). -/
def yScale (d : ClusterData) (y : ℚ) : ℚ :=
  d3ScaleLinear (yExtent d).1 (yExtent d).2 (height - margin.bottom) margin.top y

/-- The citation bonus of the circle radius (line 69):
`d.citation_count ? Math.min(d.citation_count / 100, 3) : 0`.  The JS
condition is the truthiness of `citation_count`: absent (`undefined`) and `0`
are falsy. -/
def citationBonus (cc : Option ℚ) : ℚ :=
  match cc with
  | none => 0
  | some c => if c = 0 then 0 else min (c / 100) 3

/-- The circle radius (lines 67-71): `baseRadius + citationBonus` with
`baseRadius = 4`. -/
def radius (cc : Option ℚ) : ℚ := 4 + citationBonus cc

/-- Modelled from the spec: the radius-bonus formula of claim C8 and spec
section 4.3, `min(citation_count / 100, cap)` with a bonus of `0` when
`citation_count` is absent.  Stated separately so the code's `citationBonus`
can be compared against it. -/
def specCitationBonus (cc : Option ℚ) : ℚ :=
  match cc with
  | none => 0
  | some c => min (c / 100) 3

/-- The fill opacity of a circle (line 73):
`selectedCluster === null || selectedCluster === d.cluster_id ? 0.7 : 0.2`. -/
def opacity (sel : Option ℕ) (cid : ℕ) : ℚ :=
  if sel = none ∨ sel = some cid then 7 / 10 else 2 / 10

/-- The palette lookup `colors[cluster_id % colors.length]` (lines 74, 76,
130, 187).  A JS out-of-range index would yield `undefined`, embedded as the
default of `getD`; the modulo keeps the index in range. -/
def pointColor (cid : ℕ) : String :=
  colors.getD (cid % colors.length) "undefined"

/-- `d3.mean` over a list of numbers: `undefined` (`none`) on an empty list,
the arithmetic mean otherwise. -/
def d3Mean (l : List ℚ) : Option ℚ :=
  match l with
  | [] => none
  | _ => some (l.sum / l.length)

/-- One entry of `clusterCenters` (lines 111-116). -/
structure Center where
  id : ℕ
  x : ℚ
  y : ℚ
  size : ℕ
deriving DecidableEq

/-- `clusterCenters` (lines 107-117): for every key of `data.clusters`,
filter the points of that cluster and take `d3.mean(...) || 0` of each
coordinate; the JS `|| 0` turns the `undefined` mean of an empty subset (and
a mean of `0`) into `0`, embedded as `getD 0`.  Every entry of this list gets
a `text` label appended (lines 119-132); no entry is filtered out. -/
def clusterCenters (d : ClusterData) : List Center :=
  d.clusters.map fun kc =>
    let clusterPoints := d.points.filter fun p => p.cluster_id == kc.1
    { id := kc.1
      x := (d3Mean (clusterPoints.map (·.x))).getD 0
      y := (d3Mean (clusterPoints.map (·.y))).getD 0
      size := clusterPoints.length }

/-- The selection toggle shared by the circle click handler (line 103) and
the legend-tile click handler (lines 180-182):
`selectedCluster === k ? null : k`. -/
def toggleCluster (k : ℕ) (sel : Option ℕ) : Option ℕ :=
  if sel = some k then none else some k

/-- The interaction state of the component: the two `useState` hooks of
lines 15-16 (`selectedCluster: number | null`, `hoveredPoint:
ClusterPoint | null`). -/
structure InteractionState where
  selectedCluster : Option ℕ
  hoveredPoint : Option ClusterPoint
deriving DecidableEq

/-- The initial interaction state: both hooks start at `null` (lines 15-16). -/
def initialState : InteractionState := ⟨none, none⟩

/-- The discrete events the component reacts to: the pointer handlers bound
on circles (lines 79, 97, 102), the legend-tile click (lines 180-182), and
the replacement of the `data` prop by a new snapshot. -/
inductive Event where
  | mouseover (p : ClusterPoint)
  | mouseout
  | clickPoint (p : ClusterPoint)
  | clickLegend (k : ℕ)
  | newSnapshot (d : ClusterData)

/-- The state transition of the interaction controller.  `mouseover` sets
`hoveredPoint` (line 80); `mouseout` clears it (line 98); both click sites
apply `toggleCluster` (lines 103, 180-182).  A `newSnapshot` (the `data` prop
changes) re-runs the drawing effect (deps `[data, selectedCluster]`,
line 137), whose body contains no state update and whose cleanup
(lines 134-136) only removes the tooltip node; React keeps `useState` values
across prop changes, so the state is unchanged. -/
def step (s : InteractionState) : Event → InteractionState
  | .mouseover p => { s with hoveredPoint := some p }
  | .mouseout => { s with hoveredPoint := none }
  | .clickPoint p => { s with selectedCluster := toggleCluster p.cluster_id s.selectedCluster }
  | .clickLegend k => { s with selectedCluster := toggleCluster k s.selectedCluster }
  | .newSnapshot _ => s

/-- Truthiness of `data.message` (line 142): a string is truthy iff
non-empty; an absent optional field is falsy. -/
def messageShown (d : ClusterData) : Bool :=
  match d.message with
  | none => false
  | some m => m ≠ ""

/-- What the component's top-level render returns. -/
inductive RenderMode where
  | fallback
  | main
deriving DecidableEq

/-- Lines 142-159 versus 161-261: the fallback panel is returned iff
`data.message` is truthy; otherwise the main panel (legend tiles, svg,
hover panel) is returned. -/
def renderMode (d : ClusterData) : RenderMode :=
  if messageShown d then .fallback else .main

/-- Whether the drawing effect (lines 25-137) gets past its guard
`if (!data.points.length || !svgRef.current) return;` (line 26) and computes
extents and scales.  The `<svg ref={svgRef}>` node exists only in the main
render mode, so in fallback mode `svgRef.current` is null. -/
def scaleComputed (d : ClusterData) : Bool :=
  !d.points.isEmpty && (renderMode d == .main)

/-- The `Citations` fragment of the pointer tooltip's html (line 92):
`${d.citation_count ? `<div>Citations: ...</div>` : ''}` — the empty string
when `citation_count` is absent or `0` (both falsy). -/
def tooltipCitationsFragment (cc : Option ℚ) : String :=
  match cc with
  | none => ""
  | some c => if c = 0 then "" else "<div>Citations: " ++ toString c ++ "</div>"

/-- A rendered JSX child: React skips `null`/`undefined`/boolean children and
renders numbers and strings as text nodes. -/
inductive JsxChild where
  | nothing
  | text (s : String)
  | citationsDiv (c : ℚ)
deriving DecidableEq

/-- The `{hoveredPoint.citation_count && (<div>Citations: …</div>)}` child of
the hover info panel (lines 217-219).  In JS, `e1 && e2` evaluates to `e1`
when `e1` is falsy: with `citation_count` absent the child is `undefined` and
React renders nothing, with `citation_count = 0` the child is the number `0`
and React renders it as the text `"0"`, otherwise the child is the
`<div>Citations: …</div>` element. -/
def hoverPanelCitations (cc : Option ℚ) : JsxChild :=
  match cc with
  | none => .nothing
  | some c => if c = 0 then .text "0" else .citationsDiv c

/-- A sample point in cluster 1, used by concrete instantiations. -/
def samplePoint1 : ClusterPoint :=
  ⟨"p1", 1, 2, 1, "Paper one", 2021, ["bci"], some 50⟩

/-- A sample point in cluster 3, used by concrete instantiations. -/
def samplePoint3 : ClusterPoint :=
  ⟨"p3", 10, 10, 3, "Paper three", 2023, ["eeg"], none⟩

/-- A sample cluster summary. -/
def sampleClusterInfo : ClusterInfo := ⟨0, ["bci"], ⟨2020, 2023⟩⟩

/-- A snapshot whose `clusters` map declares id 5 although no point has
`cluster_id = 5`. -/
def sampleDataEmptyCluster : ClusterData :=
  ⟨[samplePoint3], [(5, sampleClusterInfo)], "kmeans", none⟩

/-- A degenerate snapshot: `points` empty and no `message`. -/
def sampleDataNoPoints : ClusterData := ⟨[], [], "kmeans", none⟩

/-- A snapshot whose points all share `x = 5`. -/
def sampleDataConstX : ClusterData :=
  ⟨[⟨"a", 5, 1, 0, "A", 2020, [], none⟩, ⟨"b", 5, 9, 1, "B", 2021, [], none⟩],
   [], "kmeans", none⟩

/-- A snapshot with an orphaned cluster id: the only declared cluster is 1,
but `samplePoint3` carries `cluster_id = 3`. -/
def sampleDataOrphan : ClusterData :=
  ⟨[samplePoint1, samplePoint3], [(1, sampleClusterInfo)], "kmeans", none⟩

/-- A snapshot carrying a non-empty `message`. -/
def sampleDataMessage : ClusterData :=
  ⟨[samplePoint1], [], "kmeans", some "Insufficient data for clustering"⟩

/- Helper lemmas about the fold-based extent computation. -/

theorem foldl_min_le_init : ∀ (l : List ℚ) (a : ℚ), l.foldl min a ≤ a
  | [], a => le_refl a
  | b :: t, a => le_trans (foldl_min_le_init t (min a b)) (min_le_left a b)

theorem init_le_foldl_max : ∀ (l : List ℚ) (a : ℚ), a ≤ l.foldl max a
  | [], a => le_refl a
  | b :: t, a => le_trans (le_max_left a b) (init_le_foldl_max t (max a b))

theorem foldl_min_le_mem : ∀ (l : List ℚ) (a : ℚ) {y : ℚ}, y ∈ l → l.foldl min a ≤ y
  | b :: t, a, y, hy => by
    rcases List.mem_cons.mp hy with rfl | h
    · exact le_trans (foldl_min_le_init t (min a y)) (min_le_right a y)
    · exact foldl_min_le_mem t (min a b) h

theorem mem_le_foldl_max : ∀ (l : List ℚ) (a : ℚ) {y : ℚ}, y ∈ l → y ≤ l.foldl max a
  | b :: t, a, y, hy => by
    rcases List.mem_cons.mp hy with rfl | h
    · exact le_trans (le_max_right a y) (init_le_foldl_max t (max a y))
    · exact mem_le_foldl_max t (max a b) h

theorem listMin_le_mem {l : List ℚ} {y : ℚ} (hy : y ∈ l) : listMin l ≤ y := by
  cases l with
  | nil => cases hy
  | cons a t =>
    rcases List.mem_cons.mp hy with rfl | h
    · exact foldl_min_le_init t y
    · exact foldl_min_le_mem t a h

theorem mem_le_listMax {l : List ℚ} {y : ℚ} (hy : y ∈ l) : y ≤ listMax l := by
  cases l with
  | nil => cases hy
  | cons a t =>
    rcases List.mem_cons.mp hy with rfl | h
    · exact init_le_foldl_max t y
    · exact mem_le_foldl_max t a h

theorem listMin_le_listMax {l : List ℚ} (h : l ≠ []) : listMin l ≤ listMax l := by
  cases l with
  | nil => exact absurd rfl h
  | cons a t => exact le_trans (foldl_min_le_init t a) (init_le_foldl_max t a)

theorem foldl_min_mem : ∀ (l : List ℚ) (a : ℚ), l.foldl min a ∈ a :: l
  | [], _ => List.mem_singleton.mpr rfl
  | b :: t, a => by
    have h := foldl_min_mem t (min a b)
    rcases List.mem_cons.mp h with h1 | h1
    · rcases min_choice a b with h2 | h2
      · exact List.mem_cons.mpr (Or.inl (h1.trans h2))
      · exact List.mem_cons.mpr (Or.inr (List.mem_cons.mpr (Or.inl (h1.trans h2))))
    · exact List.mem_cons.mpr (Or.inr (List.mem_cons.mpr (Or.inr h1)))

theorem foldl_max_mem : ∀ (l : List ℚ) (a : ℚ), l.foldl max a ∈ a :: l
  | [], _ => List.mem_singleton.mpr rfl
  | b :: t, a => by
    have h := foldl_max_mem t (max a b)
    rcases List.mem_cons.mp h with h1 | h1
    · rcases max_choice a b with h2 | h2
      · exact List.mem_cons.mpr (Or.inl (h1.trans h2))
      · exact List.mem_cons.mpr (Or.inr (List.mem_cons.mpr (Or.inl (h1.trans h2))))
    · exact List.mem_cons.mpr (Or.inr (List.mem_cons.mpr (Or.inr h1)))

theorem listMin_mem {l : List ℚ} (h : l ≠ []) : listMin l ∈ l := by
  cases l with
  | nil => exact absurd rfl h
  | cons a t => exact foldl_min_mem t a

theorem listMax_mem {l : List ℚ} (h : l ≠ []) : listMax l ∈ l := by
  cases l with
  | nil => exact absurd rfl h
  | cons a t => exact foldl_max_mem t a

theorem listMin_all_eq {l : List ℚ} {c : ℚ} (hne : l ≠ []) (h : ∀ y ∈ l, y = c) :
    listMin l = c :=
  h _ (listMin_mem hne)

theorem listMax_all_eq {l : List ℚ} {c : ℚ} (hne : l ≠ []) (h : ∀ y ∈ l, y = c) :
    listMax l = c :=
  h _ (listMax_mem hne)

/- Helper lemmas about the embedded d3 linear scale. -/

theorem getD_spec : ∀ (l : List String) (n : ℕ) (d : String),
    n < l.length → l.get? n = some (l.getD n d)
  | _ :: _, 0, _, _ => rfl
  | _ :: t, n + 1, d, h => getD_spec t n d (Nat.lt_of_succ_lt_succ h)

theorem d3ScaleLinear_const (a r0 r1 x : ℚ) :
    d3ScaleLinear a a r0 r1 x = (r0 + r1) / 2 := by
  unfold d3ScaleLinear
  simp
  ring

theorem d3ScaleLinear_mono {a b r0 r1 : ℚ} (hab : a ≤ b) (hr : r0 ≤ r1)
    {x1 x2 : ℚ} (hx : x1 ≤ x2) :
    d3ScaleLinear a b r0 r1 x1 ≤ d3ScaleLinear a b r0 r1 x2 := by
  unfold d3ScaleLinear
  by_cases h : b - a = 0
  · simp [h]
  · have hba : 0 < b - a := lt_of_le_of_ne (by linarith) (Ne.symm h)
    simp only [h, if_false]
    have h1 : (x1 - a) / (b - a) ≤ (x2 - a) / (b - a) :=
      div_le_div_of_nonneg_right (by linarith) hba.le
    nlinarith [h1, sub_nonneg.mpr hr]

theorem d3ScaleLinear_anti {a b r0 r1 : ℚ} (hab : a ≤ b) (hr : r1 ≤ r0)
    {x1 x2 : ℚ} (hx : x1 ≤ x2) :
    d3ScaleLinear a b r0 r1 x2 ≤ d3ScaleLinear a b r0 r1 x1 := by
  unfold d3ScaleLinear
  by_cases h : b - a = 0
  · simp [h]
  · have hba : 0 < b - a := lt_of_le_of_ne (by linarith) (Ne.symm h)
    simp only [h, if_false]
    have h1 : (x1 - a) / (b - a) ≤ (x2 - a) / (b - a) :=
      div_le_div_of_nonneg_right (by linarith) hba.le
    nlinarith [h1, sub_nonpos.mpr hr]

theorem d3ScaleLinear_left {a b : ℚ} (h : a < b) (r0 r1 : ℚ) :
    d3ScaleLinear a b r0 r1 a = r0 := by
  unfold d3ScaleLinear
  have hne : b - a ≠ 0 := by linarith
  simp [hne]

theorem d3ScaleLinear_right {a b : ℚ} (h : a < b) (r0 r1 : ℚ) :
    d3ScaleLinear a b r0 r1 b = r1 := by
  unfold d3ScaleLinear
  have hne : b - a ≠ 0 := by linarith
  simp only [hne, if_false]
  field_simp

theorem d3ScaleLinear_mem_inc {a b r0 r1 x : ℚ} (hr : r0 ≤ r1)
    (hax : a ≤ x) (hxb : x ≤ b) :
    r0 ≤ d3ScaleLinear a b r0 r1 x ∧ d3ScaleLinear a b r0 r1 x ≤ r1 := by
  unfold d3ScaleLinear
  by_cases h : b - a = 0
  · simp only [h, if_true]
    constructor <;> nlinarith
  · have hba : 0 < b - a := lt_of_le_of_ne (by linarith) (Ne.symm h)
    simp only [h, if_false]
    have ht0 : 0 ≤ (x - a) / (b - a) := div_nonneg (by linarith) (le_of_lt hba)
    have ht1 : (x - a) / (b - a) ≤ 1 := by
      rw [div_le_one hba]; linarith
    constructor <;> nlinarith

theorem d3ScaleLinear_mem_dec {a b r0 r1 x : ℚ} (hr : r1 ≤ r0)
    (hax : a ≤ x) (hxb : x ≤ b) :
    r1 ≤ d3ScaleLinear a b r0 r1 x ∧ d3ScaleLinear a b r0 r1 x ≤ r0 := by
  unfold d3ScaleLinear
  by_cases h : b - a = 0
  · simp only [h, if_true]
    constructor <;> nlinarith
  · have hba : 0 < b - a := lt_of_le_of_ne (by linarith) (Ne.symm h)
    simp only [h, if_false]
    have ht0 : 0 ≤ (x - a) / (b - a) := div_nonneg (by linarith) (le_of_lt hba)
    have ht1 : (x - a) / (b - a) ≤ 1 := by
      rw [div_le_one hba]; linarith
    constructor <;> nlinarith

/-- C1 (counterexample): replacing the `data` prop by a new snapshot does
not reset the interaction state — from `selectedCluster = 1` with a hovered
point, the state after the snapshot replacement still has both set, so it is
false that both become empty for every prior interaction state. -/
theorem c1_counterexample :
    ¬ ((step ⟨some 1, some samplePoint1⟩ (Event.newSnapshot sampleDataNoPoints)).hoveredPoint = none
       ∧ (step ⟨some 1, some samplePoint1⟩ (Event.newSnapshot sampleDataNoPoints)).selectedCluster = none) := by
  simp [step]

/-- C1 (amended): the arrival of a new snapshot leaves `hoveredPoint` and
`selectedCluster` exactly as they were (the drawing effect's cleanup removes
only the tooltip node and performs no state update); both state variables are
created empty on mount. -/
theorem c1_amended :
    (∀ (s : InteractionState) (d : ClusterData), step s (Event.newSnapshot d) = s)
    ∧ initialState.selectedCluster = none ∧ initialState.hoveredPoint = none :=
  ⟨fun _ _ => rfl, rfl, rfl⟩

/-- C2 (counterexample): a snapshot with empty `points` and no `message` does
not render the fallback panel — `renderMode` is `main`, refuting the claim
that every degenerate input shows the fallback panel. -/
theorem c2_counterexample :
    sampleDataNoPoints.points = [] ∧ sampleDataNoPoints.message = none
    ∧ renderMode sampleDataNoPoints ≠ RenderMode.fallback := by
  refine ⟨rfl, rfl, ?_⟩
  simp [renderMode, messageShown, sampleDataNoPoints]

/-- C2 (amended): the fallback panel is rendered exactly when `message` is a
non-empty string; in every degenerate case (non-empty `message`, or empty
`points`) no scale computation over the extent is attempted, because the
drawing effect returns early when `points` is empty or the svg node is absent. -/
theorem c2_amended : ∀ d : ClusterData,
    ((∃ m, d.message = some m ∧ m ≠ "") → renderMode d = RenderMode.fallback)
    ∧ (renderMode d = RenderMode.fallback → scaleComputed d = false)
    ∧ (d.points = [] → scaleComputed d = false) := by
  intro d
  refine ⟨?_, ?_, ?_⟩
  · rintro ⟨m, hm, hne⟩
    simp [renderMode, messageShown, hm, hne]
  · intro h
    simp [scaleComputed, h]
  · intro h
    simp [scaleComputed, h]

/-- C2 (witness): a non-empty `message` yields the fallback panel, and the
empty-points snapshot computes no scales. -/
theorem c2_witness :
    renderMode sampleDataMessage = RenderMode.fallback
    ∧ scaleComputed sampleDataNoPoints = false :=
  ⟨(c2_amended sampleDataMessage).1 ⟨"Insufficient data for clustering", rfl, by decide⟩,
   (c2_amended sampleDataNoPoints).2.2 rfl⟩

/-- C3 (counterexample): in a snapshot whose `clusters` map declares id 5
while no point carries `cluster_id = 5`, a centroid label entry for id 5 is
still produced, at the defaulted position `(0, 0)` — refuting the claim that
no label is rendered for a cluster id with an empty filtered subset. -/
theorem c3_counterexample :
    sampleDataEmptyCluster.points.filter (fun p => p.cluster_id == 5) = []
    ∧ (5, sampleClusterInfo) ∈ sampleDataEmptyCluster.clusters
    ∧ (⟨5, 0, 0, 0⟩ : Center) ∈ clusterCenters sampleDataEmptyCluster
    ∧ ¬ (∀ c ∈ clusterCenters sampleDataEmptyCluster, c.id ≠ 5) := by
  refine ⟨by decide, by decide, by decide, ?_⟩
  intro h
  exact h ⟨5, 0, 0, 0⟩ (by decide) rfl

/-- C3 (amended): for every cluster id declared in `clusters` whose filtered
point subset is empty, a centroid label entry IS produced, with the
`undefined` means defaulted to `0` by the JS `|| 0`, i.e. the label is placed
at data-space position `(0, 0)` with size `0`. -/
theorem c3_amended : ∀ (d : ClusterData) (k : ℕ) (ci : ClusterInfo),
    (k, ci) ∈ d.clusters → d.points.filter (fun p => p.cluster_id == k) = [] →
    (⟨k, 0, 0, 0⟩ : Center) ∈ clusterCenters d := by
  intro d k ci hk hf
  unfold clusterCenters
  refine List.mem_map.mpr ⟨(k, ci), hk, ?_⟩
  simp [hf, d3Mean]

/-- C3 (witness): the amended statement at the concrete snapshot with the
empty cluster 5. -/
theorem c3_witness : (⟨5, 0, 0, 0⟩ : Center) ∈ clusterCenters sampleDataEmptyCluster :=
  c3_amended sampleDataEmptyCluster 5 sampleClusterInfo (by decide) (by decide)

/-- C4: for a non-empty point sequence in which all points share the same x
value, `xScale` maps every input to the midpoint of the horizontal output
range; symmetrically, a shared y value makes `yScale` map every input to the
midpoint of the vertical output range.  No division by zero occurs: the
degenerate branch of the d3 scale is the constant interpolation at 1/2. -/
theorem c4_zero_width_extent : ∀ d : ClusterData, d.points ≠ [] →
    ((∃ c, ∀ p ∈ d.points, p.x = c) →
       ∀ v : ℚ, xScale d v = (margin.left + (width - margin.right)) / 2)
    ∧ ((∃ c, ∀ p ∈ d.points, p.y = c) →
       ∀ v : ℚ, yScale d v = ((height - margin.bottom) + margin.top) / 2) := by
  intro d hne
  constructor
  · rintro ⟨c, hc⟩ v
    have hmapne : d.points.map (·.x) ≠ [] := by
      simpa using hne
    have hall : ∀ y ∈ d.points.map (·.x), y = c := by
      intro y hy
      obtain ⟨p, hp, rfl⟩ := List.mem_map.mp hy
      exact hc p hp
    have hlo : (xExtent d).1 = c := listMin_all_eq hmapne hall
    have hhi : (xExtent d).2 = c := listMax_all_eq hmapne hall
    rw [xScale, hlo, hhi, d3ScaleLinear_const]
  · rintro ⟨c, hc⟩ v
    have hmapne : d.points.map (·.y) ≠ [] := by
      simpa using hne
    have hall : ∀ y ∈ d.points.map (·.y), y = c := by
      intro y hy
      obtain ⟨p, hp, rfl⟩ := List.mem_map.mp hy
      exact hc p hp
    have hlo : (yExtent d).1 = c := listMin_all_eq hmapne hall
    have hhi : (yExtent d).2 = c := listMax_all_eq hmapne hall
    rw [yScale, hlo, hhi, d3ScaleLinear_const]

/-- C4 (witness): the constant-x snapshot maps x = 5 (indeed any input) to
the horizontal midpoint. -/
theorem c4_witness :
    xScale sampleDataConstX 5 = (margin.left + (width - margin.right)) / 2 :=
  (c4_zero_width_extent sampleDataConstX (by decide)).1 ⟨5, by decide⟩ 5

/-- C5: when `selectedCluster = k`, a point outside cluster k gets opacity
2/10 and a point inside gets 7/10, strictly more; with no selection every
point gets the full opacity 7/10. -/
theorem c5_selection_dimming : ∀ (k : ℕ) (p q : ClusterPoint),
    p.cluster_id ≠ k → q.cluster_id = k →
    (opacity (some k) p.cluster_id < opacity (some k) q.cluster_id
     ∧ opacity (some k) p.cluster_id = 2 / 10
     ∧ opacity (some k) q.cluster_id = 7 / 10)
    ∧ ∀ r : ClusterPoint, opacity none r.cluster_id = 7 / 10 := by
  intro k p q hp hq
  have h1 : opacity (some k) p.cluster_id = 2 / 10 := by
    simp [opacity, Ne.symm hp]
  have h2 : opacity (some k) q.cluster_id = 7 / 10 := by
    simp [opacity, hq]
  refine ⟨⟨?_, h1, h2⟩, ?_⟩
  · rw [h1, h2]; norm_num
  · intro r
    simp [opacity]

/-- C5 (witness): with cluster 1 selected, the cluster-3 point is strictly
dimmer than the cluster-1 point. -/
theorem c5_witness :
    opacity (some 1) samplePoint3.cluster_id < opacity (some 1) samplePoint1.cluster_id :=
  ((c5_selection_dimming 1 samplePoint3 samplePoint1 (by decide) (by decide)).1).1

/-- C6 (counterexample): starting from a state in which cluster 0 is already
selected, clicking the legend tile for cluster 0 twice leaves cluster 0
selected (deselect, then reselect), so it is false that for every selection
state a double toggle returns `selectedCluster` to unset. -/
theorem c6_counterexample :
    (step (step ⟨some 0, none⟩ (Event.clickLegend 0)) (Event.clickLegend 0)).selectedCluster ≠ none := by
  decide

/-- C6 (amended): a click on a point of cluster k and a click on the legend
tile for k both apply the same toggle — unset if k was selected, otherwise k
— and toggling the same id twice returns `selectedCluster` to unset exactly
when k was not already selected beforehand. -/
theorem c6_amended :
    (∀ (s : InteractionState) (p : ClusterPoint),
       (step s (Event.clickPoint p)).selectedCluster = toggleCluster p.cluster_id s.selectedCluster)
    ∧ (∀ (s : InteractionState) (k : ℕ),
       (step s (Event.clickLegend k)).selectedCluster = toggleCluster k s.selectedCluster)
    ∧ (∀ (sel : Option ℕ) (k : ℕ), toggleCluster k sel = if sel = some k then none else some k)
    ∧ (∀ (sel : Option ℕ) (k : ℕ), sel ≠ some k →
       toggleCluster k (toggleCluster k sel) = none) :=
  ⟨fun _ _ => rfl, fun _ _ => rfl, fun _ _ => rfl,
   fun sel k h => by simp [toggleCluster, h]⟩

/-- C6 (witness): from the unselected state a double toggle of cluster 0
ends unset. -/
theorem c6_witness : toggleCluster 0 (toggleCluster 0 none) = none :=
  c6_amended.2.2.2 none 0 (by decide)

/-- C7: for every non-empty point sequence, `xScale` is monotone
non-decreasing and `yScale` is monotone non-increasing; when the extent is
non-degenerate the domain endpoints map to the range endpoints
(`[min x, max x] → [left, width - right]`, `[min y, max y] →
[height - bottom, top]`, y inverted); and every point lands inside the
pixel ranges. -/
theorem c7_scale_monotone : ∀ d : ClusterData, d.points ≠ [] →
    (∀ x1 x2 : ℚ, x1 < x2 → xScale d x1 ≤ xScale d x2)
    ∧ (∀ y1 y2 : ℚ, y1 < y2 → yScale d y2 ≤ yScale d y1)
    ∧ ((xExtent d).1 < (xExtent d).2 →
        xScale d (xExtent d).1 = margin.left
        ∧ xScale d (xExtent d).2 = width - margin.right)
    ∧ ((yExtent d).1 < (yExtent d).2 →
        yScale d (yExtent d).1 = height - margin.bottom
        ∧ yScale d (yExtent d).2 = margin.top)
    ∧ (∀ p ∈ d.points,
        margin.left ≤ xScale d p.x ∧ xScale d p.x ≤ width - margin.right
        ∧ margin.top ≤ yScale d p.y ∧ yScale d p.y ≤ height - margin.bottom) := by
  intro d hne
  have hxne : d.points.map (·.x) ≠ [] := by simpa using hne
  have hyne : d.points.map (·.y) ≠ [] := by simpa using hne
  have hxe : (xExtent d).1 ≤ (xExtent d).2 := listMin_le_listMax hxne
  have hye : (yExtent d).1 ≤ (yExtent d).2 := listMin_le_listMax hyne
  refine ⟨?_, ?_, ?_, ?_, ?_⟩
  · intro x1 x2 hx
    exact d3ScaleLinear_mono hxe (by norm_num [margin, width]) (le_of_lt hx)
  · intro y1 y2 hy
    exact d3ScaleLinear_anti hye (by norm_num [margin, height]) (le_of_lt hy)
  · intro hlt
    exact ⟨d3ScaleLinear_left hlt _ _, d3ScaleLinear_right hlt _ _⟩
  · intro hlt
    exact ⟨d3ScaleLinear_left hlt _ _, d3ScaleLinear_right hlt _ _⟩
  · intro p hp
    have hxmem : p.x ∈ d.points.map (·.x) := List.mem_map.mpr ⟨p, hp, rfl⟩
    have hymem : p.y ∈ d.points.map (·.y) := List.mem_map.mpr ⟨p, hp, rfl⟩
    have hx := d3ScaleLinear_mem_inc (a := (xExtent d).1) (b := (xExtent d).2)
      (x := p.x) (by norm_num [margin, width] : (margin.left : ℚ) ≤ width - margin.right)
      (listMin_le_mem hxmem) (mem_le_listMax hxmem)
    have hy := d3ScaleLinear_mem_dec (a := (yExtent d).1) (b := (yExtent d).2)
      (x := p.y) (by norm_num [margin, height] : (margin.top : ℚ) ≤ height - margin.bottom)
      (listMin_le_mem hymem) (mem_le_listMax hymem)
    exact ⟨hx.1, hx.2, hy.1, hy.2⟩

/-- C7 (witness): on the two-point snapshot the scales are monotone in the
stated directions and map the x extent endpoints to the range ends. -/
theorem c7_witness :
    xScale sampleDataOrphan 1 ≤ xScale sampleDataOrphan 2
    ∧ yScale sampleDataOrphan 3 ≤ yScale sampleDataOrphan 2
    ∧ xScale sampleDataOrphan (xExtent sampleDataOrphan).1 = margin.left := by
  have h := c7_scale_monotone sampleDataOrphan (by decide)
  exact ⟨h.1 1 2 (by norm_num), h.2.1 2 3 (by norm_num), (h.2.2.1 (by decide)).1⟩

/-- C8: the circle radius equals `4 + min(citation_count / 100, 3)` with a
zero bonus when `citation_count` is absent, and for non-negative (or absent)
citation counts it lies in `[4, 7]`. -/
theorem c8_radius : ∀ cc : Option ℚ, (∀ c, cc = some c → 0 ≤ c) →
    radius cc = 4 + specCitationBonus cc ∧ 4 ≤ radius cc ∧ radius cc ≤ 7 := by
  intro cc hcc
  cases cc with
  | none =>
    refine ⟨rfl, ?_, ?_⟩ <;> norm_num [radius, citationBonus]
  | some c =>
    have hc : 0 ≤ c := hcc c rfl
    have hb : citationBonus (some c) = min (c / 100) 3 := by
      by_cases h0 : c = 0
      · subst h0
        simp [citationBonus]
      · simp [citationBonus, h0]
    have hbl : 0 ≤ min (c / 100) 3 := le_min (by positivity) (by norm_num)
    have hbu : min (c / 100) 3 ≤ 3 := min_le_right _ _
    refine ⟨?_, ?_, ?_⟩
    · rw [radius, hb]; rfl
    · rw [radius, hb]; linarith
    · rw [radius, hb]; linarith

/-- C8 (witness): a citation count of 250 gives radius 4 + 5/2 ∈ [4, 7]. -/
theorem c8_witness :
    radius (some 250) = 4 + specCitationBonus (some 250)
    ∧ 4 ≤ radius (some 250) ∧ radius (some 250) ≤ 7 :=
  c8_radius (some 250)
    (fun c hc => by obtain rfl : (250 : ℚ) = c := Option.some.inj hc; norm_num)

/-- C9: a point whose `cluster_id` has no entry in `clusters` is still drawn
— the palette lookup at index `cluster_id % colors.length` is in range and
yields `pointColor` — any point with the same `cluster_id` gets the same
color, and no centroid label is produced for the orphaned id. -/
theorem c9_orphan : ∀ (d : ClusterData) (p : ClusterPoint), p ∈ d.points →
    (∀ kc ∈ d.clusters, kc.1 ≠ p.cluster_id) →
    colors.get? (p.cluster_id % colors.length) = some (pointColor p.cluster_id)
    ∧ (∀ q : ClusterPoint, q.cluster_id = p.cluster_id →
        pointColor q.cluster_id = pointColor p.cluster_id)
    ∧ ∀ c ∈ clusterCenters d, c.id ≠ p.cluster_id := by
  intro d p _ horphan
  refine ⟨?_, ?_, ?_⟩
  · rw [pointColor]
    exact getD_spec colors _ "undefined" (Nat.mod_lt _ (by decide))
  · intro q hq
    rw [pointColor, pointColor, hq]
  · intro c hc
    obtain ⟨kc, hkc, rfl⟩ := List.mem_map.mp hc
    simpa using horphan kc hkc

/-- C9 (witness): the orphaned cluster-3 point of the sample snapshot gets
its in-range modulo color and no label entry carries id 3. -/
theorem c9_witness :
    colors.get? (samplePoint3.cluster_id % colors.length)
      = some (pointColor samplePoint3.cluster_id)
    ∧ ∀ c ∈ clusterCenters sampleDataOrphan, c.id ≠ samplePoint3.cluster_id := by
  have h := c9_orphan sampleDataOrphan samplePoint3 (by decide) (by decide)
  exact ⟨h.1, h.2.2⟩

/-- C10: with `citation_count` present but equal to 0, the pointer tooltip's
Citations fragment is the empty string, identical to the absent case, and the
radius bonus is 0 in both cases; but the hover info panel is NOT identical to
the absent case: the JSX child `citation_count && <div>…</div>` evaluates to
the number 0, which React renders as the text "0", whereas the absent case
renders nothing. -/
theorem c10_zero_citations :
    tooltipCitationsFragment (some 0) = ""
    ∧ tooltipCitationsFragment none = ""
    ∧ radius (some 0) = radius none
    ∧ hoverPanelCitations none = JsxChild.nothing
    ∧ hoverPanelCitations (some 0) = JsxChild.text "0"
    ∧ hoverPanelCitations (some 0) ≠ hoverPanelCitations none := by
  refine ⟨?_, rfl, ?_, rfl, ?_, ?_⟩
  · simp [tooltipCitationsFragment]
  · simp [radius, citationBonus]
  · simp [hoverPanelCitations]
  · simp [hoverPanelCitations]

end ClusterExplorer
